import Mathlib

/-!
Shallow embedding of the Myfxbook API route (src/src/app/api/myfxbook/route.ts).

The route is modelled with explicit state passing.  A value of type `St`
carries the module-level `cachedSession` variable, an oracle
`world : Nat → FetchOutcome` giving the upstream's answer to each successive
network request, the index of the next request, and a trace of the URLs
requested so far.  JavaScript exceptions become `Except String`: every value
thrown by this route is an `Error`, and the carried string is its `message`.
A rejection of `response.json()` (and the `TypeError` raised when the parsed
value is `null`/`undefined` and a field is read from it) is modelled by
`BodyJson.parseFail`, because the handlers treat every throw between the
fetch and the field tests identically: the exception propagates before any
cache manipulation.  JavaScript numbers are modelled as `Int`: the route only
copies them verbatim and never computes with them.  JavaScript string
truthiness (`!forceNew && cachedSession`, `!email || !password`,
`data.error || !data.session`, `data.message || fallback`) is modelled
exactly: `null`/`undefined` and the empty string are falsy.
-/

namespace Myfxbook

/-- Upstream account entry, after the `interface MyfxbookAccount` of the
route (lines 25-48).  The field `extra` models any further JSON fields of an
upstream entry that the interface does not declare; no code of the route ever
reads it. -/
structure MyfxbookAccount where
  id : Int
  name : String
  accountId : Int
  gain : Int
  absGain : Int
  daily : Int
  monthly : Int
  withdrawals : Int
  deposits : Int
  interest : Int
  profit : Int
  balance : Int
  drawdown : Int
  equity : Int
  equityPercent : Int
  demo : Bool
  lastUpdateDate : String
  creationDate : String
  firstTradeDate : String
  currency : String
  profitFactor : Int
  pips : Int
  extra : List (String × String)
  deriving DecidableEq

/-- Parsed JSON body as read by the handlers: the union of the fields that
`login` reads (`error`, `message`, `session`) and that `getAccounts` reads
(`error`, `message`, `accounts`).  `message` and `session` are `Option` to
model `undefined`. -/
structure Payload where
  error : Bool
  message : Option String
  session : Option String
  accounts : Option (List MyfxbookAccount)
  deriving DecidableEq

/-- Body of an HTTP response: either `response.json()` resolves to a payload,
or it rejects.  `parseFail` carries the raw body text (never inspected by the
route) and the message of the error that `response.json()` rejects with. -/
inductive BodyJson where
  | parseFail (rawBody : String) (parseMsg : String)
  | payload (p : Payload)
  deriving DecidableEq

/-- Outcome of one `proxyFetch` call: the promise rejects (transport
failure), or a response arrives with a status code and a body.  The route
never reads the status code. -/
inductive FetchOutcome where
  | transportError (msg : String)
  | response (status : Nat) (body : BodyJson)
  deriving DecidableEq

/-- Environment configuration: `process.env.MYFXBOOK_EMAIL` and
`process.env.MYFXBOOK_PASSWORD`.  `none` models an unset variable. -/
structure Config where
  email : Option String
  password : Option String
  deriving DecidableEq

/-- Process state threaded through the handlers: the module-level
`cachedSession`, the upstream oracle, the index of the next network request,
and the trace of requested URLs. -/
structure St where
  cache : Option String
  world : Nat → FetchOutcome
  idx : Nat
  calls : List String

/-- Truthiness of a JavaScript string-or-nullish value: `null`/`undefined`
and the empty string are falsy. -/
def jsTruthy : Option String → Bool
  | none => false
  | some t => !(t == "")

/-- JavaScript `a || fallback` on a string-or-nullish value. -/
def jsOr (m : Option String) (fb : String) : String :=
  match m with
  | none => fb
  | some t => if t = "" then fb else t

/-- JavaScript `String.prototype.toLowerCase`, for the ASCII range the route
relies on. -/
def jsToLowerCase (s : String) : String :=
  ⟨s.data.map Char.toLower⟩

/-- Helper for substring search: does the first list start with the second. -/
def strStartsWith : List Char → List Char → Bool
  | _, [] => true
  | [], _ :: _ => false
  | a :: as, b :: bs => a == b && strStartsWith as bs

/-- Helper for substring search over character lists. -/
def strHasSub : List Char → List Char → Bool
  | [], needle => needle.isEmpty
  | a :: as, needle => strStartsWith (a :: as) needle || strHasSub as needle

/-- JavaScript `hay.includes(needle)` on strings. -/
def includesStr (hay needle : String) : Bool :=
  strHasSub hay.data needle.data

/-- Byte is in the set that `encodeURIComponent` leaves unescaped. -/
def isUnreservedByte (n : Nat) : Bool :=
  (65 ≤ n && n ≤ 90) || (97 ≤ n && n ≤ 122) || (48 ≤ n && n ≤ 57) ||
  n == 45 || n == 95 || n == 46 || n == 33 || n == 126 || n == 42 ||
  n == 39 || n == 40 || n == 41

/-- Uppercase hexadecimal digit, as emitted by `encodeURIComponent`. -/
def hexDigitChar (n : Nat) : Char :=
  if n < 10 then Char.ofNat (48 + n) else Char.ofNat (55 + n)

/-- UTF-8 bytes of a code point. -/
def utf8Bytes (c : Char) : List Nat :=
  let n := c.toNat
  if n < 128 then [n]
  else if n < 2048 then [192 + n / 64, 128 + n % 64]
  else if n < 65536 then [224 + n / 4096, 128 + (n / 64) % 64, 128 + n % 64]
  else [240 + n / 262144, 128 + (n / 4096) % 64, 128 + (n / 64) % 64, 128 + n % 64]

/-- Percent-encoding of one byte under `encodeURIComponent`. -/
def encByte (n : Nat) : List Char :=
  if isUnreservedByte n then [Char.ofNat n]
  else ['%', hexDigitChar (n / 16), hexDigitChar (n % 16)]

/-- JavaScript `encodeURIComponent`. -/
def encodeURIComponent (s : String) : String :=
  ⟨List.flatten (s.data.map (fun c => List.flatten ((utf8Bytes c).map encByte)))⟩

/-- Constant `MYFXBOOK_API_BASE` of the route (line 4). -/
def MYFXBOOK_API_BASE : String := "https://www.myfxbook.com/api"

/-- Message of the error thrown when credentials are missing (line 75). -/
def configErrorMessage : String :=
  "Myfxbook credentials not configured. Check .env.local file."

/-- Login URL built at line 78 of the route. -/
def loginUrl (cfg : Config) : String :=
  MYFXBOOK_API_BASE ++ "/login.json?email=" ++
    encodeURIComponent (cfg.email.getD "") ++ "&password=" ++
    encodeURIComponent (cfg.password.getD "")

/-- Accounts URL built at line 107 of the route: the session is interpolated
verbatim, with no further encoding. -/
def accountsUrl (session : String) : String :=
  MYFXBOOK_API_BASE ++ "/get-my-accounts.json?session=" ++ session

/-- Model of `proxyFetch`: consume the next oracle answer, record the URL. -/
def proxyFetch (url : String) (s : St) : FetchOutcome × St :=
  (s.world s.idx, { s with idx := s.idx + 1, calls := s.calls ++ [url] })

/-- Model of `login` (lines 65-103).  The cache-hit test `!forceNew &&
cachedSession` and the tests `!email || !password`, `data.error ||
!data.session` use JavaScript truthiness.  On a payload failure the cache is
set to `null` before throwing; a fetch rejection or a `response.json()`
rejection propagates before the cache is touched. -/
def login (forceNew : Bool) (cfg : Config) (s : St) : Except String String × St :=
  if !forceNew && jsTruthy s.cache then (.ok (s.cache.getD ""), s)
  else if !(jsTruthy cfg.email) || !(jsTruthy cfg.password) then
    (.error configErrorMessage, s)
  else
    match proxyFetch (loginUrl cfg) s with
    | (.transportError m, s1) => (.error m, s1)
    | (.response _ (.parseFail _ m), s1) => (.error m, s1)
    | (.response _ (.payload p), s1) =>
      if p.error || !(jsTruthy p.session) then
        (.error (jsOr p.message "Login failed"), { s1 with cache := none })
      else
        (.ok (p.session.getD ""), { s1 with cache := p.session })

/-- Model of `getAccounts` (lines 105-128). -/
def getAccounts (session : String) (s : St) : Except String (List MyfxbookAccount) × St :=
  match proxyFetch (accountsUrl session) s with
  | (.transportError m, s1) => (.error m, s1)
  | (.response _ (.parseFail _ m), s1) => (.error m, s1)
  | (.response _ (.payload p), s1) =>
    if p.error then (.error (jsOr p.message "Failed to fetch accounts"), s1)
    else (.ok (p.accounts.getD []), s1)

/-- Shape of one entry of the success response body built by `GET`
(lines 140-154 and 169-183): thirteen fields copied from the upstream
account entry. -/
structure AccountSnapshot where
  id : Int
  name : String
  accountId : Int
  balance : Int
  equity : Int
  profit : Int
  gain : Int
  daily : Int
  monthly : Int
  drawdown : Int
  currency : String
  demo : Bool
  lastUpdateDate : String
  deriving DecidableEq

/-- Field-for-field mapping from an upstream account entry to the response
entry, exactly the object literal of lines 140-154. -/
def toAccountSnapshot (a : MyfxbookAccount) : AccountSnapshot :=
  { id := a.id
    name := a.name
    accountId := a.accountId
    balance := a.balance
    equity := a.equity
    profit := a.profit
    gain := a.gain
    daily := a.daily
    monthly := a.monthly
    drawdown := a.drawdown
    currency := a.currency
    demo := a.demo
    lastUpdateDate := a.lastUpdateDate }

/-- Result of the `GET` handler as seen by its caller: either the success
body with the mapped accounts, or the failure body `{success:false, error}`
together with its HTTP status.  The timestamp field is real time and is not
modelled. -/
inductive GetResult where
  | success (accounts : List AccountSnapshot)
  | failure (error : String) (status : Nat)
  deriving DecidableEq

/-- Retry block of `GET` (lines 162-185): clear the cache, force a fresh
login, fetch once more; any error thrown here reaches the outer catch of
`GET` and becomes the 500 failure body. -/
def retryCycle (cfg : Config) (s : St) : GetResult × St :=
  match login true cfg { s with cache := none } with
  | (.error e, s1) => (.failure e 500, s1)
  | (.ok sess, s1) =>
    match getAccounts sess s1 with
    | (.ok accounts, s2) => (.success (accounts.map toAccountSnapshot), s2)
    | (.error e, s2) => (.failure e 500, s2)

/-- Model of the `GET` handler (lines 130-203).  The nested try/catch
becomes matching on the thrown-or-returned outcomes: an accounts failure
whose lowercased message includes "session" triggers the retry block, every
other error reaches the outer catch and becomes the 500 failure body. -/
def GET (cfg : Config) (s : St) : GetResult × St :=
  match login false cfg s with
  | (.error e, s1) => (.failure e 500, s1)
  | (.ok sess, s1) =>
    match getAccounts sess s1 with
    | (.ok accounts, s2) => (.success (accounts.map toAccountSnapshot), s2)
    | (.error m, s2) =>
      if includesStr (jsToLowerCase m) "session" then retryCycle cfg s2
      else (.failure m 500, s2)

/-! Concrete inputs used by witnesses and counterexamples. -/

/-- Configuration with both credentials present. -/
def cfgOkW : Config := { email := some "u", password := some "p" }

/-- Configuration with the email variable unset. -/
def cfgMissing : Config := { email := none, password := some "p" }

/-- Successful login response carrying the given session token. -/
def loginOkBody (sess : String) : FetchOutcome :=
  .response 200 (.payload { error := false, message := some "", session := some sess, accounts := none })

/-- Bot-mitigation interstitial page: HTML body with challenge markers,
status 503.  `response.json()` rejects on it. -/
def challengeBody : FetchOutcome :=
  .response 503 (.parseFail
    "<!DOCTYPE html><head><title>Just a moment...</title></head>Ray ID: 123"
    "Unexpected token < in JSON at position 0")

/-- Generic non-challenge HTML error page, also status 503. -/
def plainHtmlBody : FetchOutcome :=
  .response 503 (.parseFail
    "<!DOCTYPE html>scheduled maintenance"
    "Unexpected token < in JSON at position 0")

/-- Initial state with an empty cache over the given oracle. -/
def initSt (w : Nat → FetchOutcome) : St :=
  { cache := none, world := w, idx := 0, calls := [] }

/-! Supporting lemmas. -/

/-- Lemma: `getAccounts` issues exactly one network request, whose URL is
`accountsUrl session`, regardless of the outcome. -/
theorem getAccounts_calls (sess : String) (s : St) :
    ((getAccounts sess s).2).calls = s.calls ++ [accountsUrl sess] := by
  unfold getAccounts proxyFetch
  cases h : s.world s.idx with
  | transportError m => simp [h]
  | response st body =>
    cases body with
    | parseFail raw pm => simp [h]
    | payload p => cases hp : p.error <;> simp [h, hp]

/-- Lemma: one invocation of `login` issues at most one network request. -/
theorem login_calls_le (f : Bool) (cfg : Config) (s : St) :
    ((login f cfg s).2).calls.length ≤ s.calls.length + 1 := by
  unfold login proxyFetch
  cases h : s.world s.idx with
  | transportError m => split <;> [simp; skip] <;> split <;> simp [h]
  | response st body =>
    cases body with
    | parseFail raw pm => split <;> [simp; skip] <;> split <;> simp [h]
    | payload p =>
      split <;> [simp; skip] <;> split <;> [simp; skip] <;>
        cases hp : (p.error || !(jsTruthy p.session)) <;> simp [h, hp]

/-- Lemma: the retry block issues at most two network requests: one forced
login and at most one accounts fetch. -/
theorem retryCycle_calls_le (cfg : Config) (s : St) :
    ((retryCycle cfg s).2).calls.length ≤ s.calls.length + 2 := by
  unfold retryCycle
  have h1 : ((login true cfg { s with cache := none }).2).calls.length ≤ s.calls.length + 1 :=
    login_calls_le true cfg { s with cache := none }
  cases hl : login true cfg { s with cache := none } with
  | mk r s1 =>
    cases r with
    | error e => simpa [hl] using Nat.le_succ_of_le (by simpa [hl] using h1)
    | ok sess =>
      have h2 := getAccounts_calls sess s1
      cases hg : getAccounts sess s1 with
      | mk r2 s2 =>
        have h2' : s2.calls.length = s1.calls.length + 1 := by
          have := congrArg List.length h2
          simpa [hg] using this
        have h1' : s1.calls.length ≤ s.calls.length + 1 := by simpa [hl] using h1
        cases r2 with
        | ok accounts => simp [hl, hg]; omega
        | error e => simp [hl, hg]; omega

/-- Lemma: the retry block resolves to the success body or to a failure body
with status 500. -/
theorem retryCycle_shape (cfg : Config) (s : St) :
    (∃ a, (retryCycle cfg s).1 = .success a) ∨ ∃ m, (retryCycle cfg s).1 = .failure m 500 := by
  unfold retryCycle
  cases hl : login true cfg { s with cache := none } with
  | mk r s1 =>
    cases r with
    | error e => exact Or.inr ⟨e, by simp⟩
    | ok sess =>
      cases hg : getAccounts sess s1 with
      | mk r2 s2 =>
        cases r2 with
        | ok accounts => exact Or.inl ⟨accounts.map toAccountSnapshot, by simp [hg]⟩
        | error e => exact Or.inr ⟨e, by simp [hg]⟩

/-- Lemma: the `GET` handler resolves to the success body or to a failure
body with status 500, for every configuration and every state. -/
theorem GET_shape (cfg : Config) (s : St) :
    (∃ a, (GET cfg s).1 = .success a) ∨ ∃ m, (GET cfg s).1 = .failure m 500 := by
  unfold GET
  cases hl : login false cfg s with
  | mk r s1 =>
    cases r with
    | error e => exact Or.inr ⟨e, by simp⟩
    | ok sess =>
      cases hg : getAccounts sess s1 with
      | mk r2 s2 =>
        cases r2 with
        | ok accounts => exact Or.inl ⟨accounts.map toAccountSnapshot, by simp [hg]⟩
        | error m =>
          by_cases hm : includesStr (jsToLowerCase m) "session" = true
          · simpa [hg, hm] using retryCycle_shape cfg s2
          · exact Or.inr ⟨m, by simp [hg, hm]⟩

/-- Invariant: the cache never holds the empty string, because `login` only
stores a session value that passed the truthiness test.  This justifies
reading "a credential is cached" as `cache = some c` with `c ≠ ""`. -/
def cacheOk (s : St) : Prop := s.cache = none ∨ ∃ c, s.cache = some c ∧ c ≠ ""

/-- Lemma: `login` preserves the cache invariant. -/
theorem login_cacheOk (f : Bool) (cfg : Config) (s : St) (h : cacheOk s) :
    cacheOk ((login f cfg s).2) := by
  unfold login proxyFetch
  cases hw : s.world s.idx with
  | transportError m =>
    split
    · exact h
    split
    · exact h
    · simpa [hw, cacheOk] using h
  | response st body =>
    cases body with
    | parseFail raw pm =>
      split
      · exact h
      split
      · exact h
      · simpa [hw, cacheOk] using h
    | payload p =>
      split
      · exact h
      split
      · exact h
      cases hp : (p.error || !(jsTruthy p.session)) with
      | false =>
        simp [hw, hp, cacheOk]
        cases hs : p.session with
        | none => simp [hs, jsTruthy] at hp
        | some c =>
          refine Or.inr ⟨c, rfl, ?_⟩
          simp [hs, jsTruthy] at hp
          simpa using hp.2
      | true => simp [hw, hp, cacheOk]

/-! Claim C1. -/

/-- C1: given a first accounts fetch that fails after a successful cached
login, `GET` performs one additional login + fetch cycle exactly when the
failure message contains "session" case-insensitively, returning that second
attempt's outcome verbatim with no further retry (the retry block issues at
most one login call and one fetch call); when the message does not mention
session, no retry happens and the failure propagates as the 500 body with
the original message and an unchanged state. -/
theorem claim_C1 (cfg : Config) (s0 : St) (sess m : String) (s1 s2 : St)
    (hlogin : login false cfg s0 = (.ok sess, s1))
    (hfetch : getAccounts sess s1 = (.error m, s2)) :
    (includesStr (jsToLowerCase m) "session" = true → GET cfg s0 = retryCycle cfg s2) ∧
    (includesStr (jsToLowerCase m) "session" = false → GET cfg s0 = (.failure m 500, s2)) ∧
    ((retryCycle cfg s2).2).calls.length ≤ s2.calls.length + 2 := by
  refine ⟨?_, ?_, retryCycle_calls_le cfg s2⟩ <;> intro hm <;> simp [GET, hlogin, hfetch, hm]

/-- Login payload for the C1 witness world. -/
def pLoginW : Payload :=
  { error := false, message := some "", session := some "sW1", accounts := none }

/-- Session-invalid accounts payload for the C1 witness world. -/
def pSessErrW : Payload :=
  { error := true, message := some "Session invalid", session := none, accounts := none }

/-- Oracle for the C1 witness: login succeeds, first fetch reports an
invalid session, the forced login then succeeds. -/
def wC1 : Nat → FetchOutcome := fun n =>
  if n = 0 then .response 200 (.payload pLoginW)
  else if n = 1 then .response 200 (.payload pSessErrW)
  else loginOkBody "sW2"

/-- Initial state of the C1 witness. -/
def stW : St := initSt wC1

/-- State after the first login of the C1 witness. -/
def stW1 : St := (login false cfgOkW stW).2

/-- State after the failed first fetch of the C1 witness. -/
def stW2 : St := (getAccounts "sW1" stW1).2

/-- Witness for C1 at a concrete world. -/
theorem claim_C1_witness :
    login false cfgOkW stW = (.ok "sW1", stW1) ∧
    getAccounts "sW1" stW1 = (.error "Session invalid", stW2) ∧
    (includesStr (jsToLowerCase "Session invalid") "session" = true →
      GET cfgOkW stW = retryCycle cfgOkW stW2) ∧
    (includesStr (jsToLowerCase "Session invalid") "session" = false →
      GET cfgOkW stW = (.failure "Session invalid" 500, stW2)) ∧
    ((retryCycle cfgOkW stW2).2).calls.length ≤ stW2.calls.length + 2 := by
  have h := claim_C1 cfgOkW stW "sW1" "Session invalid" stW1 stW2 rfl rfl
  exact ⟨rfl, rfl, h.1, h.2.1, h.2.2⟩

/-! Claim C2. -/

/-- Oracle where the accounts call returns a bot-challenge page (status 503,
"Just a moment", Ray ID marker). -/
def wChal : Nat → FetchOutcome := fun n => if n = 0 then loginOkBody "sC2" else challengeBody

/-- Oracle where the accounts call returns a plain HTML error page with no
challenge signature, same status. -/
def wPlain : Nat → FetchOutcome := fun n => if n = 0 then loginOkBody "sC2" else plainHtmlBody

/-- Counterexample to C2: on the bot-challenge response the route produces
the generic 500 failure carrying the JSON parse error message, and that
result is identical to the one produced for a signature-free HTML page, so
no distinct BlockedByUpstream kind naming the matched signature exists. -/
theorem claim_C2_counterexample :
    (GET cfgOkW (initSt wChal)).1 = .failure "Unexpected token < in JSON at position 0" 500 ∧
    (GET cfgOkW (initSt wChal)).1 = (GET cfgOkW (initSt wPlain)).1 :=
  ⟨rfl, rfl⟩

/-- C2 amended: for every accounts-call response whose body is not JSON
(bot-challenge pages included), the result is the generic 500 failure body
carrying the message of the JSON parse error, independent of the body text
and of the HTTP status; the route defines no BlockedByUpstream kind.  The
hypothesis on the parse message not mentioning "session" rules out the
retry path. -/
theorem claim_C2_amended (cfg : Config) (s0 s1 : St) (sess : String) (st : Nat)
    (raw pmsg : String)
    (hlogin : login false cfg s0 = (.ok sess, s1))
    (hworld : s1.world s1.idx = .response st (.parseFail raw pmsg))
    (hns : includesStr (jsToLowerCase pmsg) "session" = false) :
    (GET cfg s0).1 = .failure pmsg 500 := by
  have hfetch : getAccounts sess s1 = (.error pmsg, (proxyFetch (accountsUrl sess) s1).2) := by
    unfold getAccounts
    simp [proxyFetch, hworld]
  simp [GET, hlogin, hfetch, hns]

/-- State after the login of the C2 witness world. -/
def stC2a : St := (login false cfgOkW (initSt wChal)).2

/-- Witness for the amended C2 at the concrete bot-challenge world. -/
theorem claim_C2_amended_witness :
    login false cfgOkW (initSt wChal) = (.ok "sC2", stC2a) ∧
    stC2a.world stC2a.idx = .response 503 (.parseFail
      "<!DOCTYPE html><head><title>Just a moment...</title></head>Ray ID: 123"
      "Unexpected token < in JSON at position 0") ∧
    includesStr (jsToLowerCase "Unexpected token < in JSON at position 0") "session" = false ∧
    (GET cfgOkW (initSt wChal)).1 = .failure "Unexpected token < in JSON at position 0" 500 :=
  ⟨rfl, rfl, rfl,
    claim_C2_amended cfgOkW (initSt wChal) stC2a "sC2" 503
      "<!DOCTYPE html><head><title>Just a moment...</title></head>Ray ID: 123"
      "Unexpected token < in JSON at position 0" rfl rfl rfl⟩

/-! Claim C3. -/

/-- Oracle whose accounts call is a bot challenge, for C3. -/
def wChal3 : Nat → FetchOutcome := fun n => if n = 0 then loginOkBody "sC3" else challengeBody

/-- Oracle whose accounts call is a transport failure with the same message
string, for C3. -/
def wTrans3 : Nat → FetchOutcome := fun n =>
  if n = 0 then loginOkBody "sC3"
  else .transportError "Unexpected token < in JSON at position 0"

/-- Counterexample to C3: a bot-challenge failure (spec kind
BlockedByUpstream) and a transport failure (spec kind UpstreamUnavailable)
produce identical caller-visible results, so the caller receives no error
kind tag and cannot distinguish BlockedByUpstream from other failures. -/
theorem claim_C3_counterexample :
    (GET cfgOkW (initSt wChal3)).1 = (GET cfgOkW (initSt wTrans3)).1 ∧
    (GET cfgOkW (initSt wChal3)).1 = .failure "Unexpected token < in JSON at position 0" 500 :=
  ⟨rfl, rfl⟩

/-- C3 amended: on failure the caller receives only `success:false`, a
human-readable message and the fixed HTTP status 500; there is no error
kind tag, so failure kinds are distinguishable only through the message
text. -/
theorem claim_C3_amended (cfg : Config) (s : St) (m : String) (st : Nat)
    (h : (GET cfg s).1 = .failure m st) : st = 500 := by
  rcases GET_shape cfg s with ⟨a, ha⟩ | ⟨m2, hm⟩
  · rw [ha] at h
    exact absurd h (by simp)
  · rw [hm] at h
    injection h with h1 h2
    exact h2.symm

/-- Oracle that always fails transport, for simple failing witnesses. -/
def wAny : Nat → FetchOutcome := fun _ => .transportError "unused"

/-- Witness for the amended C3 at a concrete failing invocation. -/
theorem claim_C3_amended_witness :
    (GET cfgMissing (initSt wAny)).1 = .failure configErrorMessage 500 ∧ (500 : Nat) = 500 :=
  ⟨rfl, claim_C3_amended cfgMissing (initSt wAny) configErrorMessage 500 rfl⟩

/-! Claim C4. -/

/-- C4: for every configuration and every state, so for every shape of
upstream response on either call (transport failures, unparseable bodies,
arbitrary payloads), `GET` resolves to a classified value: the success body
or the 500 failure body; no input terminates abnormally. -/
theorem claim_C4 (cfg : Config) (s : St) :
    (∃ a, (GET cfg s).1 = .success a) ∨ ∃ m, (GET cfg s).1 = .failure m 500 :=
  GET_shape cfg s

/-! Claim C5. -/

/-- C5: whenever a credential is cached (per the route's truthiness test a
cached credential is a non-empty string, and `login_cacheOk` shows the cache
never holds an empty string), `login` with `forceNew = false` returns the
identical credential on two consecutive invocations, leaving the state and
in particular the call trace untouched: no network call on either
invocation. -/
theorem claim_C5 (cfg : Config) (s : St) (c : String)
    (hc : s.cache = some c) (hne : c ≠ "") :
    login false cfg s = (.ok c, s) ∧
    login false cfg ((login false cfg s).2) = (.ok c, s) ∧
    ((login false cfg s).2).calls = s.calls := by
  have h1 : login false cfg s = (.ok c, s) := by
    unfold login
    simp [jsTruthy, hc, hne]
  refine ⟨h1, ?_, ?_⟩
  · rw [h1]
    exact h1
  · rw [h1]

/-- State with a cached credential for the C5 witness. -/
def stC5 : St := { cache := some "abc", world := fun _ => FetchOutcome.transportError "unused", idx := 0, calls := [] }

/-- Witness for C5 at a concrete cached state. -/
theorem claim_C5_witness :
    stC5.cache = some "abc" ∧ "abc" ≠ "" ∧
    (login false cfgOkW stC5 = (.ok "abc", stC5) ∧
     login false cfgOkW ((login false cfgOkW stC5).2) = (.ok "abc", stC5) ∧
     ((login false cfgOkW stC5).2).calls = stC5.calls) :=
  ⟨rfl, by decide, claim_C5 cfgOkW stC5 "abc" rfl (by decide)⟩

/-! Claim C6. -/

/-- State with a cached credential whose forced refresh meets a transport
failure. -/
def stC6 : St := { cache := some "oldSession", world := fun _ => FetchOutcome.transportError "network down", idx := 0, calls := [] }

/-- Counterexample to C6: a forced login that fails before the response
payload is parsed (here a transport failure; an unparseable bot-challenge
body behaves identically) leaves the previously cached credential in place,
because the exception propagates before `cachedSession = null` runs. -/
theorem claim_C6_counterexample :
    (login true cfgOkW stC6).1 = .error "network down" ∧
    ((login true cfgOkW stC6).2).cache = some "oldSession" :=
  ⟨rfl, rfl⟩

/-- C6 amended: a failing login clears the cache exactly when the failure
comes from a successfully parsed payload (error flag set, or session field
missing or empty); on a transport failure, on an unparseable body (bot
challenges included) and on the missing-configuration failure the cache is
left unchanged.  In all cases a failing login never stores a new value. -/
theorem claim_C6_amended (cfg : Config) (s : St) (r : String) (s2 : St)
    (h : login true cfg s = (.error r, s2)) :
    (s2.cache = none ∨ s2.cache = s.cache) ∧
    (∀ msg, s.world s.idx = .transportError msg → s2.cache = s.cache) ∧
    (∀ st raw pm, s.world s.idx = .response st (.parseFail raw pm) → s2.cache = s.cache) ∧
    (∀ st p, s.world s.idx = .response st (.payload p) →
      jsTruthy cfg.email = true → jsTruthy cfg.password = true → s2.cache = none) := by
  by_cases hcfg : (!(jsTruthy cfg.email) || !(jsTruthy cfg.password)) = true
  · have hl : login true cfg s = (.error configErrorMessage, s) := by
      unfold login
      simp [hcfg]
    rw [hl] at h
    injection h with h1 h2
    subst h2
    refine ⟨Or.inr rfl, fun _ _ => rfl, fun _ _ _ _ => rfl, ?_⟩
    intro st p hw he hp
    rw [he, hp] at hcfg
    simp at hcfg
  · cases hw : s.world s.idx with
    | transportError msg =>
      have hl : login true cfg s =
          (.error msg, { s with idx := s.idx + 1, calls := s.calls ++ [loginUrl cfg] }) := by
        unfold login proxyFetch
        simp [hcfg, hw]
      rw [hl] at h
      injection h with h1 h2
      subst h2
      refine ⟨Or.inr rfl, fun _ _ => rfl, ?_, ?_⟩
      · intro st raw pm hw2
        exact absurd hw2 (by simp)
      · intro st p hw2 _ _
        exact absurd hw2 (by simp)
    | response st body =>
      cases body with
      | parseFail raw pm =>
        have hl : login true cfg s =
            (.error pm, { s with idx := s.idx + 1, calls := s.calls ++ [loginUrl cfg] }) := by
          unfold login proxyFetch
          simp [hcfg, hw]
        rw [hl] at h
        injection h with h1 h2
        subst h2
        refine ⟨Or.inr rfl, ?_, fun _ _ _ _ => rfl, ?_⟩
        · intro msg hw2
          exact absurd hw2 (by simp)
        · intro st2 p hw2 _ _
          exact absurd hw2 (by simp)
      | payload p =>
        cases hp : (p.error || !(jsTruthy p.session)) with
        | true =>
          have hl : login true cfg s =
              (.error (jsOr p.message "Login failed"),
               { s with cache := none, idx := s.idx + 1, calls := s.calls ++ [loginUrl cfg] }) := by
            unfold login proxyFetch
            simp [hcfg, hw, hp]
          rw [hl] at h
          injection h with h1 h2
          subst h2
          refine ⟨Or.inl rfl, ?_, ?_, fun _ _ _ _ _ => rfl⟩
          · intro msg hw2
            exact absurd hw2 (by simp)
          · intro st2 raw pm hw2
            exact absurd hw2 (by simp)
        | false =>
          have hl : (login true cfg s).1 = .ok (p.session.getD "") := by
            unfold login proxyFetch
            simp [hcfg, hw, hp]
          rw [h] at hl
          exact absurd hl (by simp)

/-- Oracle whose login answer is a payload with the error flag set. -/
def wAuthFail : Nat → FetchOutcome := fun _ =>
  .response 200 (.payload { error := true, message := some "Invalid credentials", session := none, accounts := none })

/-- State with a cached credential for the amended C6 witness. -/
def stC6w : St := { cache := some "oldSession", world := wAuthFail, idx := 0, calls := [] }

/-- Witness for the amended C6: a payload failure clears the cache. -/
theorem claim_C6_amended_witness :
    login true cfgOkW stC6w = (.error "Invalid credentials", (login true cfgOkW stC6w).2) ∧
    (((login true cfgOkW stC6w).2).cache = none ∨
     ((login true cfgOkW stC6w).2).cache = stC6w.cache) :=
  ⟨rfl, (claim_C6_amended cfgOkW stC6w "Invalid credentials" (login true cfgOkW stC6w).2 rfl).1⟩

/-! Claim C7. -/

/-- C7: when the accounts call parses with the error flag unset, `GET`
succeeds with exactly the upstream account list mapped entry by entry
through `toAccountSnapshot`: length and order preserved, each entry the
field-for-field copy, fields outside the interface ignored, and an empty
upstream list giving the successful empty sequence. -/
theorem claim_C7 (cfg : Config) (s0 s1 : St) (sess : String) (st : Nat) (p : Payload)
    (hlogin : login false cfg s0 = (.ok sess, s1))
    (hworld : s1.world s1.idx = .response st (.payload p))
    (herr : p.error = false) :
    (GET cfg s0).1 = .success ((p.accounts.getD []).map toAccountSnapshot) ∧
    ((p.accounts.getD []).map toAccountSnapshot).length = (p.accounts.getD []).length ∧
    (∀ i, ((p.accounts.getD []).map toAccountSnapshot).get? i
        = ((p.accounts.getD []).get? i).map toAccountSnapshot) ∧
    (∀ (a : MyfxbookAccount) (e : List (String × String)),
        toAccountSnapshot { a with extra := e } = toAccountSnapshot a) ∧
    (p.accounts = some [] → (GET cfg s0).1 = .success []) := by
  have hfetch : getAccounts sess s1 =
      (.ok (p.accounts.getD []), (proxyFetch (accountsUrl sess) s1).2) := by
    unfold getAccounts
    simp [proxyFetch, hworld, herr]
  have hmain : (GET cfg s0).1 = .success ((p.accounts.getD []).map toAccountSnapshot) := by
    simp [GET, hlogin, hfetch]
  refine ⟨hmain, by simp, ?_, fun a e => rfl, ?_⟩
  · intro i
    simp
  · intro hacc
    rw [hacc] at hmain
    simpa using hmain

/-- Upstream account entry used by the C7 witness, carrying one field
outside the interface. -/
def acctA : MyfxbookAccount :=
  { id := 7, name := "Alpha", accountId := 1234, gain := 12, absGain := 11, daily := 1,
    monthly := 3, withdrawals := 0, deposits := 1000, interest := 2, profit := 250,
    balance := 10250, drawdown := 5, equity := 10200, equityPercent := 99, demo := false,
    lastUpdateDate := "2025-01-01 00:00", creationDate := "2024-01-01",
    firstTradeDate := "2024-01-02", currency := "USD", profitFactor := 2, pips := 300,
    extra := [("unknownField", "ignored")] }

/-- Accounts payload for the C7 witness. -/
def pAccountsW : Payload :=
  { error := false, message := some "", session := none, accounts := some [acctA] }

/-- Oracle for the C7 witness. -/
def wC7 : Nat → FetchOutcome := fun n =>
  if n = 0 then loginOkBody "sC7" else .response 200 (.payload pAccountsW)

/-- Initial state of the C7 witness. -/
def stC7 : St := initSt wC7

/-- State after the login of the C7 witness. -/
def stC7a : St := (login false cfgOkW stC7).2

/-- Witness for C7 at a concrete one-account world. -/
theorem claim_C7_witness :
    login false cfgOkW stC7 = (.ok "sC7", stC7a) ∧
    stC7a.world stC7a.idx = .response 200 (.payload pAccountsW) ∧
    pAccountsW.error = false ∧
    (GET cfgOkW stC7).1 = .success ([acctA].map toAccountSnapshot) :=
  ⟨rfl, rfl, rfl, (claim_C7 cfgOkW stC7 stC7a "sC7" 200 pAccountsW rfl rfl rfl).1⟩

/-! Claim C8. -/

/-- C8: every accounts request uses exactly the URL obtained by appending
the cached credential character for character to the fixed base and path,
with no re-encoding, as witnessed on the literal credential "abc%3D". -/
theorem claim_C8 :
    (∀ sess s, ((getAccounts sess s).2).calls = s.calls ++ [accountsUrl sess]) ∧
    (∀ sess, accountsUrl sess =
      "https://www.myfxbook.com/api/get-my-accounts.json?session=" ++ sess) ∧
    accountsUrl "abc%3D" = "https://www.myfxbook.com/api/get-my-accounts.json?session=abc%3D" := by
  have hbase : MYFXBOOK_API_BASE ++ "/get-my-accounts.json?session=" =
      "https://www.myfxbook.com/api/get-my-accounts.json?session=" := by decide
  refine ⟨getAccounts_calls, fun sess => ?_, by decide⟩
  unfold accountsUrl
  rw [hbase]

/-! Claim C9. -/

/-- State with a cached credential over an irrelevant oracle. -/
def stC9 : St := { cache := some "abc", world := fun _ => FetchOutcome.transportError "unused", idx := 0, calls := [] }

/-- Counterexample to C9: with the email variable unset but a credential
cached and `forceNew = false`, `login` does not fail with the configuration
error: it returns the cached credential successfully (and makes no network
call), because the cache test precedes the configuration test. -/
theorem claim_C9_counterexample :
    login false cfgMissing stC9 = (.ok "abc", stC9) ∧
    ((login false cfgMissing stC9).2).calls = stC9.calls :=
  ⟨rfl, rfl⟩

/-- C9 amended: whenever the login handshake is not served from the cache
(forced refresh, or no truthy cached credential) and the username or secret
is absent, `login` fails fast with the configuration error message and the
state is unchanged: zero network calls. -/
theorem claim_C9_amended (cfg : Config) (s : St) (force : Bool)
    (hmiss : jsTruthy cfg.email = false ∨ jsTruthy cfg.password = false)
    (hpath : force = true ∨ jsTruthy s.cache = false) :
    login force cfg s = (.error configErrorMessage, s) ∧
    ((login force cfg s).2).calls = s.calls := by
  have hcond : (!force && jsTruthy s.cache) = false := by
    rcases hpath with h | h <;> simp [h]
  have hcfg : (!(jsTruthy cfg.email) || !(jsTruthy cfg.password)) = true := by
    rcases hmiss with h | h <;> simp [h]
  have hl : login force cfg s = (.error configErrorMessage, s) := by
    unfold login
    simp [hcond, hcfg]
  exact ⟨hl, by rw [hl]⟩

/-- Witness for the amended C9 at a concrete missing-email configuration. -/
theorem claim_C9_amended_witness :
    (jsTruthy cfgMissing.email = false ∨ jsTruthy cfgMissing.password = false) ∧
    ((true : Bool) = true ∨ jsTruthy (initSt wAny).cache = false) ∧
    (login true cfgMissing (initSt wAny) = (.error configErrorMessage, initSt wAny) ∧
     ((login true cfgMissing (initSt wAny)).2).calls = (initSt wAny).calls) :=
  ⟨Or.inl rfl, Or.inl rfl, claim_C9_amended cfgMissing (initSt wAny) true (Or.inl rfl) (Or.inl rfl)⟩

/-! Claim C10. -/

/-- C10: when the accounts payload parses with the error flag unset and the
accounts field entirely absent, `getAccounts` returns the successful empty
list, treating the missing field like an empty one. -/
theorem claim_C10 (sess : String) (s : St) (st : Nat) (p : Payload)
    (hworld : s.world s.idx = .response st (.payload p))
    (herr : p.error = false) (hacc : p.accounts = none) :
    (getAccounts sess s).1 = .ok [] := by
  unfold getAccounts
  simp [proxyFetch, hworld, herr, hacc]

/-- Payload with the error flag unset and no accounts field. -/
def pNoAccounts : Payload :=
  { error := false, message := some "ok", session := none, accounts := none }

/-- Oracle answering with `pNoAccounts`. -/
def wC10 : Nat → FetchOutcome := fun _ => .response 200 (.payload pNoAccounts)

/-- Witness for C10 at the concrete missing-accounts payload. -/
theorem claim_C10_witness :
    (initSt wC10).world (initSt wC10).idx = .response 200 (.payload pNoAccounts) ∧
    pNoAccounts.error = false ∧ pNoAccounts.accounts = none ∧
    (getAccounts "sX" (initSt wC10)).1 = .ok [] :=
  ⟨rfl, rfl, rfl, claim_C10 "sX" (initSt wC10) 200 pNoAccounts rfl rfl rfl⟩

end Myfxbook
